import Mathlib

/-!
Verification development for the ai-investment-planner core:
a shallow embedding of the risk scoring engine (`core/recommender.py`),
the risk-profile classifier, the product recommendation ranker, and the
compound-growth projection calculator (`core/cards.py`), together with
theorems settling the specification claims.

Money amounts and scores are modelled as exact rationals (`ℚ`); the
fractional-exponent projection is modelled over the reals (`ℝ`) with
real exponentiation, since the source computes `principal * (1+r) ** years`
with a non-integer exponent.
-/

/-- Mirrors the `@dataclass InvestorProfile` of `core/schemas.py`: a plain
record with no validation of any kind attached to construction. -/
structure InvestorProfile where
  income_bracket : String
  savings : ℚ
  debt_level : String
  investment_budget : ℚ
  investment_term_months : ℤ
  risk_tolerance : ℤ
  investment_purpose : String
deriving DecidableEq, Repr

/-- The income lookup of `simple_risk_score` (recommender.py lines 31-37):
a conditional chain with a silent default of 120000 for any string that is
not one of the four explicitly matched bands. -/
def incomeOf (income_bracket : String) : ℚ :=
  if income_bracket = "0 - No income / rely on investment returns" then 20000
  else if income_bracket = "0-£25,000" then 30000
  else if income_bracket = "25,000 - 49,999" then 40000
  else if income_bracket = "50,000 - 99,999" then 65000
  else 120000

/-- Savings adequacy bucket score (recommender.py lines 43-54). -/
def savings_score (income savings : ℚ) : ℚ :=
  let emergency_need := income / 4
  let savings_ratio := savings / max emergency_need 1
  if savings_ratio < 1/2 then 20
  else if savings_ratio < 1 then 40
  else if savings_ratio < 2 then 60
  else 80

/-- The debt lookup of `simple_risk_score` (recommender.py lines 57-62):
a conditional chain with a silent default of 30000 for any string that is
not one of the three explicitly matched bands. -/
def debtValue (debt_level : String) : ℚ :=
  if debt_level = "No debt" then 0
  else if debt_level = "Less than 10,000" then 5000
  else if debt_level = "10,000 - 25,000" then 15000
  else 30000

/-- Debt ratio bucket score (recommender.py lines 63-72). -/
def debt_score (debt_value income : ℚ) : ℚ :=
  let debt_ratio := debt_value / max income 1
  if debt_ratio > 1/2 then 20
  else if debt_ratio > 1/4 then 40
  else if debt_ratio > 1/10 then 60
  else 80

/-- Investment burden bucket score (recommender.py lines 75-84). -/
def investment_burden_score (investment_budget savings : ℚ) : ℚ :=
  if investment_budget ≤ savings then 80
  else
    let ratio := investment_budget / max savings 1
    if ratio < 2 then 60
    else if ratio < 5 then 40
    else 20

/-- Time-horizon sub-score (recommender.py line 89). -/
def time_score (investment_term_months : ℤ) : ℚ :=
  min ((investment_term_months : ℚ) / 360) 1 * 100

/-- Leverage penalty (recommender.py lines 98-102). -/
def leverage_penalty (investment_budget savings : ℚ) : ℚ :=
  if investment_budget > savings then
    let leverage_ratio := investment_budget / max savings 1
    min ((leverage_ratio - 1) * 20) 30
  else 0

/-- Tolerance sub-score (recommender.py line 40). -/
def risk_tolerance_score (risk_tolerance : ℤ) : ℚ :=
  ((risk_tolerance : ℚ) - 1) / 4 * 100

/-- The weighted sum of recommender.py lines 105-112, before the final
clamp of line 114. -/
def unclamped_score (p : InvestorProfile) : ℚ :=
  let income := incomeOf p.income_bracket
  let s := savings_score income p.savings
  let d := debt_score (debtValue p.debt_level) income
  let b := investment_burden_score p.investment_budget p.savings
  let capacity_score := (s + d + b) / 3
  let financial_stability_score := (s + d) / 2
  let knowledge_score : ℚ := 50
  3/10 * risk_tolerance_score p.risk_tolerance +
    1/5 * capacity_score +
    1/5 * time_score p.investment_term_months +
    3/20 * financial_stability_score +
    1/10 * knowledge_score -
    1/20 * leverage_penalty p.investment_budget p.savings

/-- `simple_risk_score` of recommender.py lines 20-114: the weighted sum
clamped to [0, 100]. -/
def simple_risk_score (p : InvestorProfile) : ℚ :=
  max 0 (min (unclamped_score p) 100)

/-- `infer_risk_profile` of recommender.py lines 117-129. -/
def infer_risk_profile (score : ℚ) : String :=
  if score ≤ 20 then "Defensive"
  else if score ≤ 40 then "Conservative"
  else if score ≤ 60 then "Balanced"
  else if score ≤ 80 then "Growth"
  else "Aggressive"

/-- Checks that `needle` is an initial segment of `hay` (character by
character), the base step of substring search. -/
def leadMatch : List Char → List Char → Bool
  | [], _ => true
  | _ :: _, [] => false
  | a :: as, b :: bs => a == b && leadMatch as bs

/-- Substring search over character lists: `needle` occurs somewhere
inside `hay`. -/
def charsHold (needle : List Char) : List Char → Bool
  | [] => needle.isEmpty
  | c :: rest => leadMatch needle (c :: rest) || charsHold needle rest

/-- Models pandas `Series.str.contains(label)` as used by the ranker: the
label is a plain word (no regex metacharacters), so containment is plain
substring containment. -/
def strContains (hay needle : String) : Bool :=
  charsHold needle.data hay.data

/-- A row of the product catalogue CSV, with the column names of
`core/recommender.py` / the spec's external interface section.
`Suitable_Risk_Profiles` and `Suitable_Purposes` are kept as raw text
fields tested by substring containment, exactly as the source does. -/
structure Product where
  Product_Name : String
  Product_Type : String
  Risk_Level : ℤ
  Suitable_Risk_Profiles : String
  Suitable_Purposes : String
  Min_Term_Months : ℤ
  Min_Investment : ℚ
  Expected_Annual_Return_pct : Option ℚ
deriving DecidableEq, Repr

/-- Mirrors the `@dataclass Recommendation` of `core/schemas.py`. -/
structure Recommendation where
  product_name : String
  product_type : String
  risk_level : ℤ
  min_term_months : ℤ
  min_investment : ℚ
  expected_return_pct : Option ℚ
deriving DecidableEq, Repr

/-- The hard filter predicate of recommender.py line 150: the row's
`Suitable_Risk_Profiles` text contains the computed risk profile label. -/
def hardOK (risk_profile : String) (p : Product) : Bool :=
  strContains p.Suitable_Risk_Profiles risk_profile

/-- The purpose soft-filter predicate of recommender.py lines 160-162. -/
def purposeOK (investment_purpose : String) (p : Product) : Bool :=
  strContains p.Suitable_Purposes investment_purpose

/-- `affordable` flag of recommender.py line 156. -/
def affordable (profile : InvestorProfile) (p : Product) : Bool :=
  decide (p.Min_Investment ≤ profile.investment_budget)

/-- `risk_diff` of recommender.py line 157. -/
def risk_diff (profile : InvestorProfile) (p : Product) : ℤ :=
  |p.Risk_Level - profile.risk_tolerance|

/-- The composite sort order of recommender.py lines 167-170 and 177-180:
affordable descending, then risk_diff ascending, then Min_Investment
ascending; ties keep the incoming order (pandas sorts several columns with
a stable lexicographic sort). -/
def rankLE (profile : InvestorProfile) (a b : Nat × Product) : Bool :=
  if affordable profile a.2 ≠ affordable profile b.2 then affordable profile a.2
  else if risk_diff profile a.2 ≠ risk_diff profile b.2 then
    decide (risk_diff profile a.2 < risk_diff profile b.2)
  else decide (a.2.Min_Investment ≤ b.2.Min_Investment)

/-- The composite sort key of the claim, as a proposition on rows:
affordable descending (affordable rows first), then risk_diff ascending,
then Min_Investment ascending. `rankLE` decides exactly this relation. -/
def compositeKeyLE (profile : InvestorProfile) (a b : Nat × Product) : Prop :=
  (affordable profile a.2 = true ∧ affordable profile b.2 = false) ∨
  (affordable profile a.2 = affordable profile b.2 ∧
    (risk_diff profile a.2 < risk_diff profile b.2 ∨
      (risk_diff profile a.2 = risk_diff profile b.2 ∧
        a.2.Min_Investment ≤ b.2.Min_Investment)))

/-- Copying a catalogue row into a `Recommendation`
(recommender.py lines 188-202). -/
def mkRecommendation (p : Product) : Recommendation :=
  ⟨p.Product_Name, p.Product_Type, p.Risk_Level, p.Min_Term_Months,
    p.Min_Investment, p.Expected_Annual_Return_pct⟩

/-- The `df` of recommender.py line 150 after the hard filter: catalogue
rows whose `Suitable_Risk_Profiles` contains the computed label. Rows carry
their original dataframe index (via `List.enum`) because stage 2 removes
the stage-1 rows by index (`df.index.isin(selected.index)`). -/
def eligibleRows (profile : InvestorProfile) (catalog : List Product) :
    List (Nat × Product) :=
  catalog.enum.filter
    (fun r => hardOK (infer_risk_profile (simple_risk_score profile)) r.2)

/-- The `df_purpose` of recommender.py line 165: hard-filtered rows whose
`Suitable_Purposes` contains the profile's purpose. -/
def purposeRows (profile : InvestorProfile) (catalog : List Product) :
    List (Nat × Product) :=
  (eligibleRows profile catalog).filter
    (fun r => purposeOK profile.investment_purpose r.2)

/-- The `selected` of recommender.py line 172: the purpose-matching rows
sorted by the composite key, truncated to `top_n`. -/
def stage1Rows (profile : InvestorProfile) (catalog : List Product)
    (top_n : Nat) : List (Nat × Product) :=
  ((purposeRows profile catalog).mergeSort (rankLE profile)).take top_n

/-- The `remaining` of recommender.py line 176: hard-filtered rows whose
index was not already selected in stage 1. -/
def stage2Rows (profile : InvestorProfile) (catalog : List Product)
    (top_n : Nat) : List (Nat × Product) :=
  (eligibleRows profile catalog).filter
    (fun r => !(((stage1Rows profile catalog top_n).map Prod.fst).contains r.1))

/-- The final `selected` of recommender.py lines 175-184: stage 1, topped
up from the sorted remainder when it holds fewer than `top_n` rows. -/
def chosenRows (profile : InvestorProfile) (catalog : List Product)
    (top_n : Nat) : List (Nat × Product) :=
  if (stage1Rows profile catalog top_n).length < top_n then
    stage1Rows profile catalog top_n ++
      ((stage2Rows profile catalog top_n).mergeSort (rankLE profile)).take
        (top_n - (stage1Rows profile catalog top_n).length)
  else stage1Rows profile catalog top_n

/-- `recommend_products` of recommender.py lines 132-204: empty when the
hard filter retains nothing (lines 152-153), otherwise the chosen rows
copied into `Recommendation` values. -/
def recommend_products (profile : InvestorProfile) (catalog : List Product)
    (top_n : Nat) : List Recommendation :=
  if (eligibleRows profile catalog).isEmpty then []
  else (chosenRows profile catalog top_n).map (fun r => mkRecommendation r.2)

/-- The three possible outcomes of the projection block of
`core/cards.py` (`make_projection_text`, lines 6-42): no output when the
rate is absent; a distinct below-minimum message carrying no numbers; or
the computed future value and gain (the source embeds these two numbers in
a presentation string, abstracted away here). -/
inductive ProjectionResult where
  | noRate : ProjectionResult
  | belowMinimum : ProjectionResult
  | projection (future_value gain : ℝ) : ProjectionResult

/-- The projection computation of `make_projection_text`
(cards.py lines 13-25): `rate_pct is None` returns the empty string
(modelled `noRate`); a principal below the minimum investment returns the
fixed below-minimum message (modelled `belowMinimum`); otherwise
`future_value = principal * (1 + rate/100) ** (months/12)` with a real
(fractional-year) exponent, and `gain = future_value - principal`. -/
noncomputable def make_projection (principal : ℝ) (months : ℤ)
    (rate_pct : Option ℝ) (min_investment : ℝ) : ProjectionResult :=
  match rate_pct with
  | none => .noRate
  | some rate =>
    if principal < min_investment then .belowMinimum
    else
      let years : ℝ := (months : ℝ) / 12
      let r := rate / 100
      let future_value := principal * (1 + r) ^ years
      .projection future_value (future_value - principal)

lemma savings_score_bounds (i s : ℚ) : 20 ≤ savings_score i s ∧ savings_score i s ≤ 80 := by
  simp only [savings_score]
  split_ifs <;> norm_num

lemma debt_score_bounds (d i : ℚ) : 20 ≤ debt_score d i ∧ debt_score d i ≤ 80 := by
  simp only [debt_score]
  split_ifs <;> norm_num

lemma investment_burden_score_bounds (b s : ℚ) :
    20 ≤ investment_burden_score b s ∧ investment_burden_score b s ≤ 80 := by
  simp only [investment_burden_score]
  split_ifs <;> norm_num

lemma investment_burden_score_le_60 (b s : ℚ) (h : s < b) :
    investment_burden_score b s ≤ 60 := by
  simp only [investment_burden_score]
  split_ifs with h1 <;> try norm_num
  exact absurd h1 (not_le.mpr h)

lemma time_score_bounds (m : ℤ) (h : 1 ≤ m) : 5/18 ≤ time_score m ∧ time_score m ≤ 100 := by
  unfold time_score
  constructor
  · have h1 : (1 : ℚ) / 360 ≤ (m : ℚ) / 360 := by
      apply div_le_div_of_nonneg_right _ (by norm_num)
      exact_mod_cast h
    have h2 : (1 : ℚ) / 360 ≤ min ((m : ℚ) / 360) 1 := le_min h1 (by norm_num)
    nlinarith
  · have h2 : min ((m : ℚ) / 360) 1 ≤ 1 := min_le_right _ _
    nlinarith

lemma risk_tolerance_score_bounds (r : ℤ) (h1 : 1 ≤ r) (h5 : r ≤ 5) :
    0 ≤ risk_tolerance_score r ∧ risk_tolerance_score r ≤ 100 := by
  unfold risk_tolerance_score
  have c1 : (1 : ℚ) ≤ (r : ℚ) := by exact_mod_cast h1
  have c5 : (r : ℚ) ≤ 5 := by exact_mod_cast h5
  constructor <;> nlinarith

lemma leverage_penalty_bounds (b s : ℚ) (hb : 0 ≤ b) :
    -20 ≤ leverage_penalty b s ∧ leverage_penalty b s ≤ 30 := by
  simp only [leverage_penalty]
  split_ifs with h
  · have hm : (1 : ℚ) ≤ max s 1 := le_max_right _ _
    have hr : 0 ≤ b / max s 1 := div_nonneg hb (by linarith)
    constructor
    · have : (-20 : ℚ) ≤ (b / max s 1 - 1) * 20 := by nlinarith
      exact le_min this (by norm_num)
    · exact min_le_right _ _
  · norm_num

lemma leverage_penalty_eq_zero (b s : ℚ) (h : b ≤ s) : leverage_penalty b s = 0 := by
  simp only [leverage_penalty]
  rw [if_neg (not_lt.mpr h)]

lemma investment_burden_score_eq_80 (b s : ℚ) (h : b ≤ s) :
    investment_burden_score b s = 80 := by
  simp only [investment_burden_score]
  rw [if_pos h]

lemma unclamped_score_bounds (p : InvestorProfile)
    (h1 : 1 ≤ p.risk_tolerance) (h2 : p.risk_tolerance ≤ 5)
    (h3 : 1 ≤ p.investment_term_months) (h4 : 0 ≤ p.savings)
    (h5 : 0 ≤ p.investment_budget) :
    10 < unclamped_score p ∧ unclamped_score p ≤ 83 := by
  obtain ⟨hs1, hs2⟩ := savings_score_bounds (incomeOf p.income_bracket) p.savings
  obtain ⟨hd1, hd2⟩ := debt_score_bounds (debtValue p.debt_level) (incomeOf p.income_bracket)
  obtain ⟨ht1, ht2⟩ := time_score_bounds p.investment_term_months h3
  obtain ⟨hr1, hr2⟩ := risk_tolerance_score_bounds p.risk_tolerance h1 h2
  simp only [unclamped_score]
  rcases le_or_lt p.investment_budget p.savings with hle | hlt
  · rw [leverage_penalty_eq_zero _ _ hle, investment_burden_score_eq_80 _ _ hle]
    constructor <;> linarith
  · obtain ⟨hb1, hb2⟩ := investment_burden_score_bounds p.investment_budget p.savings
    have hb3 := investment_burden_score_le_60 p.investment_budget p.savings hlt
    obtain ⟨hl1, hl2⟩ := leverage_penalty_bounds p.investment_budget p.savings h5
    constructor <;> linarith

/-- C2: for every InvestorProfile with risk_tolerance in [1,5], a positive
term and non-negative savings and budget, the result of simple_risk_score
lies in the closed interval [0,100]. -/
theorem claim_C2 (p : InvestorProfile)
    (h1 : 1 ≤ p.risk_tolerance) (h2 : p.risk_tolerance ≤ 5)
    (h3 : 1 ≤ p.investment_term_months) (h4 : 0 ≤ p.savings)
    (h5 : 0 ≤ p.investment_budget) :
    0 ≤ simple_risk_score p ∧ simple_risk_score p ≤ 100 := by
  unfold simple_risk_score
  exact ⟨le_max_left _ _, max_le (by norm_num) (min_le_right _ _)⟩

/-- Witness for C2 at an extreme input: maximal risk tolerance, an
enormous term, and an investment budget far exceeding savings. -/
theorem claim_C2_witness :
    0 ≤ simple_risk_score ⟨"0-£25,000", 0, "Over 25,000", 1000000000, 1000000, 5, "Buying property"⟩ ∧
    simple_risk_score ⟨"0-£25,000", 0, "Over 25,000", 1000000000, 1000000, 5, "Buying property"⟩ ≤ 100 :=
  claim_C2 _ (by norm_num) (by norm_num) (by norm_num) (by norm_num) (by norm_num)

/-- C3: for every valid profile the weighted sum computed before clamping
lies in the interval (10, 83], so neither clamp bound is ever active
(simple_risk_score equals the unclamped sum) and the Aggressive label can
only arise from scores in (80, 83]. -/
theorem claim_C3 (p : InvestorProfile)
    (h1 : 1 ≤ p.risk_tolerance) (h2 : p.risk_tolerance ≤ 5)
    (h3 : 1 ≤ p.investment_term_months) (h4 : 0 ≤ p.savings)
    (h5 : 0 ≤ p.investment_budget) :
    (10 < unclamped_score p ∧ unclamped_score p ≤ 83) ∧
    simple_risk_score p = unclamped_score p ∧
    (infer_risk_profile (simple_risk_score p) = "Aggressive" →
      80 < simple_risk_score p ∧ simple_risk_score p ≤ 83) := by
  obtain ⟨hlo, hhi⟩ := unclamped_score_bounds p h1 h2 h3 h4 h5
  have hclamp : simple_risk_score p = unclamped_score p := by
    unfold simple_risk_score
    rw [min_eq_left (by linarith), max_eq_right (by linarith)]
  refine ⟨⟨hlo, hhi⟩, hclamp, ?_⟩
  intro hA
  rw [hclamp] at hA ⊢
  unfold infer_risk_profile at hA
  split_ifs at hA with g1 g2 g3 g4
  · exact absurd hA (by decide)
  · exact absurd hA (by decide)
  · exact absurd hA (by decide)
  · exact absurd hA (by decide)
  · exact ⟨not_le.mp g4, hhi⟩

/-- Witness for C3 at a concrete valid profile. -/
theorem claim_C3_witness :
    (10 < unclamped_score ⟨"50,000 - 99,999", 5000, "No debt", 2000, 60, 3, "Retirement savings"⟩ ∧
      unclamped_score ⟨"50,000 - 99,999", 5000, "No debt", 2000, 60, 3, "Retirement savings"⟩ ≤ 83) ∧
    simple_risk_score ⟨"50,000 - 99,999", 5000, "No debt", 2000, 60, 3, "Retirement savings"⟩ =
      unclamped_score ⟨"50,000 - 99,999", 5000, "No debt", 2000, 60, 3, "Retirement savings"⟩ ∧
    (infer_risk_profile (simple_risk_score ⟨"50,000 - 99,999", 5000, "No debt", 2000, 60, 3, "Retirement savings"⟩) = "Aggressive" →
      80 < simple_risk_score ⟨"50,000 - 99,999", 5000, "No debt", 2000, 60, 3, "Retirement savings"⟩ ∧
      simple_risk_score ⟨"50,000 - 99,999", 5000, "No debt", 2000, 60, 3, "Retirement savings"⟩ ≤ 83) :=
  claim_C3 _ (by norm_num) (by norm_num) (by norm_num) (by norm_num) (by norm_num)

/-- C4: infer_risk_profile is total over [0,100] with no gaps: every
score maps to one of the five labels, with boundaries inclusive at the
lower label (score exactly 20 is Defensive, not Conservative; 40, 60, 80
likewise; anything above 80 is Aggressive). -/
theorem claim_C4 (s : ℚ) (h0 : 0 ≤ s) (h100 : s ≤ 100) :
    (infer_risk_profile s = "Defensive" ∨ infer_risk_profile s = "Conservative" ∨
      infer_risk_profile s = "Balanced" ∨ infer_risk_profile s = "Growth" ∨
      infer_risk_profile s = "Aggressive") ∧
    (infer_risk_profile s = "Defensive" ↔ s ≤ 20) ∧
    (infer_risk_profile s = "Conservative" ↔ 20 < s ∧ s ≤ 40) ∧
    (infer_risk_profile s = "Balanced" ↔ 40 < s ∧ s ≤ 60) ∧
    (infer_risk_profile s = "Growth" ↔ 60 < s ∧ s ≤ 80) ∧
    (infer_risk_profile s = "Aggressive" ↔ 80 < s) := by
  unfold infer_risk_profile
  split_ifs with g1 g2 g3 g4 <;>
    refine ⟨by tauto, ?_, ?_, ?_, ?_, ?_⟩ <;>
    simp_all <;> (try intro hx) <;> linarith

/-- Witness for C4 at the boundary score 20, which classifies as
Defensive. -/
theorem claim_C4_witness :
    (infer_risk_profile 20 = "Defensive" ∨ infer_risk_profile 20 = "Conservative" ∨
      infer_risk_profile 20 = "Balanced" ∨ infer_risk_profile 20 = "Growth" ∨
      infer_risk_profile 20 = "Aggressive") ∧
    (infer_risk_profile 20 = "Defensive" ↔ (20:ℚ) ≤ 20) ∧
    (infer_risk_profile 20 = "Conservative" ↔ 20 < (20:ℚ) ∧ (20:ℚ) ≤ 40) ∧
    (infer_risk_profile 20 = "Balanced" ↔ 40 < (20:ℚ) ∧ (20:ℚ) ≤ 60) ∧
    (infer_risk_profile 20 = "Growth" ↔ 60 < (20:ℚ) ∧ (20:ℚ) ≤ 80) ∧
    (infer_risk_profile 20 = "Aggressive" ↔ 80 < (20:ℚ)) :=
  claim_C4 20 (by norm_num) (by norm_num)

/-- C10: with every other profile field held fixed, simple_risk_score is
non-decreasing in risk_tolerance over [1,5]. -/
theorem claim_C10 (p : InvestorProfile) (r1 r2 : ℤ)
    (ha : 1 ≤ r1) (hab : r1 ≤ r2) (hb : r2 ≤ 5) :
    simple_risk_score { p with risk_tolerance := r1 } ≤
      simple_risk_score { p with risk_tolerance := r2 } := by
  have hmono : risk_tolerance_score r1 ≤ risk_tolerance_score r2 := by
    unfold risk_tolerance_score
    have hc : (r1 : ℚ) ≤ r2 := by exact_mod_cast hab
    nlinarith
  have hu : unclamped_score { p with risk_tolerance := r1 } ≤
      unclamped_score { p with risk_tolerance := r2 } := by
    simp only [unclamped_score]
    linarith
  exact max_le_max le_rfl (min_le_min hu le_rfl)

/-- Witness for C10 at risk tolerances 2 and 4 of an otherwise fixed
profile. -/
theorem claim_C10_witness :
    simple_risk_score ⟨"25,000 - 49,999", 10000, "No debt", 5000, 60, 2, "Buying property"⟩ ≤
      simple_risk_score ⟨"25,000 - 49,999", 10000, "No debt", 5000, 60, 4, "Buying property"⟩ :=
  claim_C10 ⟨"25,000 - 49,999", 10000, "No debt", 5000, 60, 2, "Buying property"⟩ 2 4
    (by norm_num) (by norm_num) (by norm_num)

lemma score_unmapped_bands (p : InvestorProfile)
    (n1 : p.income_bracket ≠ "0 - No income / rely on investment returns")
    (n2 : p.income_bracket ≠ "0-£25,000")
    (n3 : p.income_bracket ≠ "25,000 - 49,999")
    (n4 : p.income_bracket ≠ "50,000 - 99,999")
    (m1 : p.debt_level ≠ "No debt")
    (m2 : p.debt_level ≠ "Less than 10,000")
    (m3 : p.debt_level ≠ "10,000 - 25,000") :
    incomeOf p.income_bracket = 120000 ∧ debtValue p.debt_level = 30000 ∧
    simple_risk_score p =
      simple_risk_score { p with income_bracket := "100,000 or more", debt_level := "Over 25,000" } := by
  have hI : incomeOf p.income_bracket = 120000 := by
    unfold incomeOf
    rw [if_neg n1, if_neg n2, if_neg n3, if_neg n4]
  have hD : debtValue p.debt_level = 30000 := by
    unfold debtValue
    rw [if_neg m1, if_neg m2, if_neg m3]
  have hI2 : incomeOf "100,000 or more" = 120000 := by simp [incomeOf]
  have hD2 : debtValue "Over 25,000" = 30000 := by simp [debtValue]
  refine ⟨hI, hD, ?_⟩
  unfold simple_risk_score unclamped_score
  dsimp only
  rw [hI, hD, hI2, hD2]

/-- Counterexample to C1: InvestorProfile construction performs no
validation and no InvalidProfileError exists anywhere in the source; a
profile whose income_bracket and debt_level are outside every enumerated
band (and whose risk_tolerance is 9, outside [1,5]) reaches scoring, where
the income lookup silently substitutes the default 120000 and the debt
lookup the default 30000, making the profile score exactly as a top-band
profile does. Even the enumerated UI band "Less than 25,000" falls to the
scoring default because the lookup matches the band string "0-£25,000"
instead. -/
theorem claim_C1_counterexample :
    incomeOf "Middle income band" = 120000 ∧
    incomeOf "Less than 25,000" = 120000 ∧
    debtValue "Enormous debt" = 30000 ∧
    simple_risk_score ⟨"Middle income band", 1000, "Enormous debt", 500, 12, 9, "Wealth accumulation"⟩ =
      simple_risk_score ⟨"100,000 or more", 1000, "Over 25,000", 500, 12, 9, "Wealth accumulation"⟩ := by
  have h := score_unmapped_bands
    ⟨"Middle income band", 1000, "Enormous debt", 500, 12, 9, "Wealth accumulation"⟩
    (by decide) (by decide) (by decide) (by decide) (by decide) (by decide) (by decide)
  exact ⟨h.1, by simp [incomeOf], h.2.1, h.2.2⟩

/-- C1 (amended): construction performs no validation, so every profile
reaches scoring; an income_bracket outside the four bands matched by the
scoring lookup is silently assigned income 120000, a debt_level outside
the three matched bands is silently assigned debt 30000, and the score is
the same as for the corresponding explicitly-matched top bands. -/
theorem claim_C1_amended (p : InvestorProfile)
    (hi : p.income_bracket ∉ (["0 - No income / rely on investment returns", "0-£25,000",
      "25,000 - 49,999", "50,000 - 99,999"] : List String))
    (hd : p.debt_level ∉ (["No debt", "Less than 10,000", "10,000 - 25,000"] : List String)) :
    incomeOf p.income_bracket = 120000 ∧ debtValue p.debt_level = 30000 ∧
    simple_risk_score p =
      simple_risk_score { p with income_bracket := "100,000 or more", debt_level := "Over 25,000" } := by
  simp only [List.mem_cons, List.not_mem_nil, or_false, not_or] at hi hd
  exact score_unmapped_bands p hi.1 hi.2.1 hi.2.2.1 hi.2.2.2 hd.1 hd.2.1 hd.2.2

/-- Witness for C1 (amended): a concrete profile with out-of-domain band
strings on which the lookups default and scoring proceeds. -/
theorem claim_C1_amended_witness :
    incomeOf "Middle band" = 120000 ∧ debtValue "Huge" = 30000 ∧
    simple_risk_score ⟨"Middle band", 1000, "Huge", 500, 12, 3, "Wealth accumulation"⟩ =
      simple_risk_score ⟨"100,000 or more", 1000, "Over 25,000", 500, 12, 3, "Wealth accumulation"⟩ :=
  claim_C1_amended ⟨"Middle band", 1000, "Huge", 500, 12, 3, "Wealth accumulation"⟩
    (by decide) (by decide)

/-- C9: the projection calculator distinguishes its two non-numeric
outcomes: an absent rate_pct yields the no-projection result regardless of
the other arguments; a present rate with principal below the minimum
investment yields the distinct below-minimum result, which carries no
numeric projection. -/
theorem claim_C9 :
    (∀ (principal : ℝ) (months : ℤ) (min_investment : ℝ),
      make_projection principal months none min_investment = ProjectionResult.noRate) ∧
    (∀ (principal : ℝ) (months : ℤ) (rate min_investment : ℝ),
      principal < min_investment →
      make_projection principal months (some rate) min_investment = ProjectionResult.belowMinimum) ∧
    ProjectionResult.noRate ≠ ProjectionResult.belowMinimum ∧
    (∀ fv g : ℝ, ProjectionResult.belowMinimum ≠ ProjectionResult.projection fv g) := by
  refine ⟨fun _ _ _ => rfl, fun p m r mi h => ?_, fun h => ProjectionResult.noConfusion h,
    fun fv g h => ProjectionResult.noConfusion h⟩
  simp only [make_projection]
  rw [if_pos h]

/-- Witness for C9: a 1000 principal against a 5000 minimum with a
present rate yields the below-minimum result. -/
theorem claim_C9_witness :
    make_projection 1000 12 (some 5) 5000 = ProjectionResult.belowMinimum :=
  claim_C9.2.1 1000 12 5 5000 (by norm_num)

lemma rpow_three_halves_eq (x : ℝ) (hx : 0 < x) :
    x ^ ((3:ℝ)/2) = x * Real.sqrt x := by
  have h1 : (3:ℝ)/2 = 1 + 1/2 := by norm_num
  rw [h1, Real.rpow_add hx, Real.rpow_one, ← Real.sqrt_eq_rpow]

lemma fv_bounds :
    1153.68 < 1000 * (1 + (10:ℝ)/100) ^ ((18:ℝ)/12) ∧
    1000 * (1 + (10:ℝ)/100) ^ ((18:ℝ)/12) < 1153.6911 := by
  have hbase : (1 + (10:ℝ)/100) = 11/10 := by norm_num
  have hexp : ((18:ℝ)/12) = (3:ℝ)/2 := by norm_num
  rw [hbase, hexp, rpow_three_halves_eq (11/10) (by norm_num)]
  have hlo : (1.0488:ℝ) < Real.sqrt (11/10) :=
    (Real.lt_sqrt (by norm_num)).mpr (by norm_num)
  have hhi : Real.sqrt (11/10) < 1.04881 :=
    (Real.sqrt_lt' (by norm_num)).mpr (by norm_num)
  constructor <;> nlinarith

/-- Counterexample to C8: project(1000, 18, 10.0, 0) does compute
future_value = 1000 * 1.1 ^ 1.5, but that value exceeds 1153, hence is
more than 4 away from the 1149.49 the claim asserts (the true value is
about 1153.69). -/
theorem claim_C8_counterexample :
    make_projection 1000 18 (some 10) 0 =
      ProjectionResult.projection (1000 * (1 + 10/100) ^ (((18:ℤ):ℝ)/12))
        (1000 * (1 + 10/100) ^ (((18:ℤ):ℝ)/12) - 1000) ∧
    1153 < 1000 * (1 + (10:ℝ)/100) ^ ((18:ℝ)/12) ∧
    4 < |1000 * (1 + (10:ℝ)/100) ^ ((18:ℝ)/12) - 1149.49| := by
  refine ⟨?_, ?_, ?_⟩
  · simp only [make_projection]
    rw [if_neg (by norm_num : ¬ (1000:ℝ) < 0)]
  · linarith [fv_bounds.1]
  · rw [abs_of_pos (by linarith [fv_bounds.1])]
    linarith [fv_bounds.1]

/-- C8 (amended): for every principal at or above the minimum investment
with a present rate, the projection computes
future_value = principal * (1 + rate/100) ^ (months/12) and
gain = future_value - principal, with a fractional-year exponent (an
18-month term uses exponent exactly 3/2); in particular
project(1000, 18, 10.0, 0) yields future_value = 1000 * 1.1 ^ 1.5
≈ 1153.69 (not 1149.49). -/
theorem claim_C8_amended :
    (∀ (principal : ℝ) (months : ℤ) (rate min_investment : ℝ),
      min_investment ≤ principal →
      make_projection principal months (some rate) min_investment =
        ProjectionResult.projection
          (principal * (1 + rate/100) ^ ((months:ℝ)/12))
          (principal * (1 + rate/100) ^ ((months:ℝ)/12) - principal)) ∧
    ((18:ℝ)/12 = 3/2) ∧
    |1000 * (1 + (10:ℝ)/100) ^ ((18:ℝ)/12) - 1153.69| < 1/10 := by
  refine ⟨fun principal months rate min_investment h => ?_, by norm_num, ?_⟩
  · simp only [make_projection]
    rw [if_neg (not_lt.mpr h)]
  · rw [abs_lt]
    constructor <;> linarith [fv_bounds.1, fv_bounds.2]

/-- Witness for C8 (amended) at principal 1000, 18 months, rate 10 and
minimum 0. -/
theorem claim_C8_witness :
    make_projection 1000 18 (some 10) 0 =
      ProjectionResult.projection (1000 * (1 + 10/100) ^ (((18:ℤ):ℝ)/12))
        (1000 * (1 + 10/100) ^ (((18:ℤ):ℝ)/12) - 1000) :=
  claim_C8_amended.1 1000 18 10 0 (by norm_num)

lemma snd_mem_of_mem_enum {α : Type} {i : ℕ} {x : α} {l : List α}
    (h : (i, x) ∈ l.enum) : x ∈ l := by
  obtain ⟨-, -, hx⟩ := List.mem_enumFrom h
  rw [hx]
  exact List.getElem_mem _

lemma mem_eligibleRows {profile : InvestorProfile} {catalog : List Product}
    {r : Nat × Product} (h : r ∈ eligibleRows profile catalog) :
    r.2 ∈ catalog ∧
      hardOK (infer_risk_profile (simple_risk_score profile)) r.2 = true := by
  rw [eligibleRows, List.mem_filter] at h
  obtain ⟨i, x⟩ := r
  exact ⟨snd_mem_of_mem_enum h.1, h.2⟩

lemma mem_purposeRows {profile : InvestorProfile} {catalog : List Product}
    {r : Nat × Product} (h : r ∈ purposeRows profile catalog) :
    r ∈ eligibleRows profile catalog ∧
      purposeOK profile.investment_purpose r.2 = true := by
  rw [purposeRows, List.mem_filter] at h
  exact h

lemma mem_stage1Rows {profile : InvestorProfile} {catalog : List Product}
    {top_n : Nat} {r : Nat × Product} (h : r ∈ stage1Rows profile catalog top_n) :
    r ∈ purposeRows profile catalog :=
  (List.mergeSort_perm (purposeRows profile catalog) (rankLE profile)).mem_iff.mp
    (List.mem_of_mem_take h)

lemma mem_stage2Rows {profile : InvestorProfile} {catalog : List Product}
    {top_n : Nat} {r : Nat × Product} (h : r ∈ stage2Rows profile catalog top_n) :
    r ∈ eligibleRows profile catalog ∧
      r.1 ∉ (stage1Rows profile catalog top_n).map Prod.fst := by
  rw [stage2Rows, List.mem_filter] at h
  refine ⟨h.1, fun hmem => ?_⟩
  have hc : ((stage1Rows profile catalog top_n).map Prod.fst).contains r.1 = true :=
    List.elem_iff.mpr hmem
  rw [hc] at h
  simp at h

lemma mem_chosenRows {profile : InvestorProfile} {catalog : List Product}
    {top_n : Nat} {r : Nat × Product} (h : r ∈ chosenRows profile catalog top_n) :
    r ∈ eligibleRows profile catalog := by
  rw [chosenRows] at h
  split_ifs at h with hlen
  · rcases List.mem_append.mp h with h1 | h2
    · exact (mem_purposeRows (mem_stage1Rows h1)).1
    · have hr2 : r ∈ stage2Rows profile catalog top_n :=
        (List.mergeSort_perm _ _).mem_iff.mp (List.mem_of_mem_take h2)
      exact (mem_stage2Rows hr2).1
  · exact (mem_purposeRows (mem_stage1Rows h)).1

/-- C5: every recommendation emitted by recommend_products comes from a
catalogue product whose Suitable_Risk_Profiles field contains (by
substring containment) the computed risk profile label; no recommendation
is emitted for a product excluding that label. -/
theorem claim_C5 (profile : InvestorProfile) (catalog : List Product)
    (top_n : Nat) (rec : Recommendation)
    (h : rec ∈ recommend_products profile catalog top_n) :
    ∃ p, p ∈ catalog ∧
      hardOK (infer_risk_profile (simple_risk_score profile)) p = true ∧
      rec = mkRecommendation p := by
  rw [recommend_products] at h
  split_ifs at h with he
  · exact absurd h (List.not_mem_nil rec)
  · obtain ⟨r, hr, hrec⟩ := List.mem_map.mp h
    obtain ⟨hcat, hhard⟩ := mem_eligibleRows (mem_chosenRows hr)
    exact ⟨r.2, hcat, hhard, hrec.symm⟩

lemma stage1Rows_eq_of_short {profile : InvestorProfile} {catalog : List Product}
    {top_n : Nat} (hlen : (stage1Rows profile catalog top_n).length < top_n) :
    stage1Rows profile catalog top_n =
      (purposeRows profile catalog).mergeSort (rankLE profile) := by
  have hslen : ((purposeRows profile catalog).mergeSort (rankLE profile)).length =
      (purposeRows profile catalog).length :=
    (List.mergeSort_perm _ _).length_eq
  have hl : ((purposeRows profile catalog).mergeSort (rankLE profile)).length < top_n := by
    have := List.length_take top_n ((purposeRows profile catalog).mergeSort (rankLE profile))
    rw [stage1Rows] at hlen
    omega
  exact List.take_of_length_le (le_of_lt hl)

lemma purposeRows_short_of_stage1_short {profile : InvestorProfile}
    {catalog : List Product} {top_n : Nat}
    (hlen : (stage1Rows profile catalog top_n).length < top_n) :
    (purposeRows profile catalog).length < top_n := by
  have hslen : ((purposeRows profile catalog).mergeSort (rankLE profile)).length =
      (purposeRows profile catalog).length :=
    (List.mergeSort_perm _ _).length_eq
  have := List.length_take top_n ((purposeRows profile catalog).mergeSort (rankLE profile))
  rw [stage1Rows] at hlen
  omega

lemma rankLE_iff (profile : InvestorProfile) (a b : Nat × Product) :
    rankLE profile a b = true ↔ compositeKeyLE profile a b := by
  unfold rankLE compositeKeyLE
  split_ifs with h1 h2
  · rcases Bool.eq_false_or_eq_true (affordable profile a.2) with ha | ha <;>
      rcases Bool.eq_false_or_eq_true (affordable profile b.2) with hb | hb <;>
      simp_all
  · rw [not_ne_iff] at h1
    simp [h1, h2, decide_eq_true_iff]
  · rw [not_ne_iff] at h1 h2
    simp [h1, h2, decide_eq_true_iff]

lemma compositeKeyLE_trans (profile : InvestorProfile) {a b c : Nat × Product}
    (hab : compositeKeyLE profile a b) (hbc : compositeKeyLE profile b c) :
    compositeKeyLE profile a c := by
  rcases hab with ⟨ha, hb⟩ | ⟨hab, h2⟩ <;> rcases hbc with ⟨hb2, hc⟩ | ⟨hbc2, h3⟩
  · exact absurd (hb.symm.trans hb2) (by simp)
  · exact Or.inl ⟨ha, hbc2 ▸ hb⟩
  · exact Or.inl ⟨hab.trans hb2, hc⟩
  · refine Or.inr ⟨hab.trans hbc2, ?_⟩
    rcases h2 with h2 | ⟨h2e, h2m⟩ <;> rcases h3 with h3 | ⟨h3e, h3m⟩
    · exact Or.inl (lt_trans h2 h3)
    · exact Or.inl (h3e ▸ h2)
    · exact Or.inl (h2e ▸ h3)
    · exact Or.inr ⟨h2e.trans h3e, le_trans h2m h3m⟩

lemma compositeKeyLE_total (profile : InvestorProfile) (a b : Nat × Product) :
    compositeKeyLE profile a b ∨ compositeKeyLE profile b a := by
  unfold compositeKeyLE
  by_cases haff : affordable profile a.2 = affordable profile b.2
  · rcases lt_trichotomy (risk_diff profile a.2) (risk_diff profile b.2) with h | h | h
    · exact Or.inl (Or.inr ⟨haff, Or.inl h⟩)
    · rcases le_total a.2.Min_Investment b.2.Min_Investment with hm | hm
      · exact Or.inl (Or.inr ⟨haff, Or.inr ⟨h, hm⟩⟩)
      · exact Or.inr (Or.inr ⟨haff.symm, Or.inr ⟨h.symm, hm⟩⟩)
    · exact Or.inr (Or.inr ⟨haff.symm, Or.inl h⟩)
  · rcases Bool.eq_false_or_eq_true (affordable profile a.2) with ha | ha <;>
      rcases Bool.eq_false_or_eq_true (affordable profile b.2) with hb | hb
    · exact absurd (ha.trans hb.symm) haff
    · exact Or.inl (Or.inl ⟨ha, hb⟩)
    · exact Or.inr (Or.inl ⟨hb, ha⟩)
    · exact absurd (ha.trans hb.symm) haff

lemma rankLE_trans (profile : InvestorProfile) :
    ∀ a b c : Nat × Product, rankLE profile a b = true → rankLE profile b c = true →
      rankLE profile a c = true :=
  fun a b c hab hbc => (rankLE_iff profile a c).mpr
    (compositeKeyLE_trans profile ((rankLE_iff profile a b).mp hab)
      ((rankLE_iff profile b c).mp hbc))

lemma rankLE_total (profile : InvestorProfile) :
    ∀ a b : Nat × Product, (rankLE profile a b || rankLE profile b a) = true := by
  intro a b
  rw [Bool.or_eq_true]
  rcases compositeKeyLE_total profile a b with h | h
  · exact Or.inl ((rankLE_iff profile a b).mpr h)
  · exact Or.inr ((rankLE_iff profile b a).mpr h)

lemma pairwise_mergeSort_rank (profile : InvestorProfile) (l : List (Nat × Product)) :
    (l.mergeSort (rankLE profile)).Pairwise (fun a b => rankLE profile a b = true) :=
  List.sorted_mergeSort (rankLE_trans profile) (rankLE_total profile) l

lemma pairwise_take_mergeSort (profile : InvestorProfile) (l : List (Nat × Product)) (n : Nat) :
    ((l.mergeSort (rankLE profile)).take n).Pairwise (compositeKeyLE profile) :=
  (List.Pairwise.sublist (List.take_sublist n _) (pairwise_mergeSort_rank profile l)).imp
    (fun h => (rankLE_iff profile _ _).mp h)

/-- C6: the output of recommend_products is a purpose partition: a block
of purpose-matching rows followed by a block of non-matching (but still
hard-filtered) rows; both blocks are sorted by the composite key
(affordable descending, risk_diff ascending, Min_Investment ascending);
the non-matching block together with some leftover rows is a permutation
of the stage-2 remainder, and every appended row precedes every leftover
row in the composite-key order (the fill takes the best-ranked rows of the
remainder sorted by that key); and when at least top_n
hard-filter-eligible products match the purpose the non-matching block is
empty. -/
theorem claim_C6 (profile : InvestorProfile) (catalog : List Product) (top_n : Nat) :
    ∃ A B C : List (Nat × Product),
      recommend_products profile catalog top_n =
        A.map (fun r => mkRecommendation r.2) ++ B.map (fun r => mkRecommendation r.2) ∧
      (∀ r ∈ A, purposeOK profile.investment_purpose r.2 = true) ∧
      (∀ r ∈ B, purposeOK profile.investment_purpose r.2 = false ∧
        r ∈ eligibleRows profile catalog) ∧
      A.Pairwise (compositeKeyLE profile) ∧
      B.Pairwise (compositeKeyLE profile) ∧
      (stage2Rows profile catalog top_n).Perm (B ++ C) ∧
      (∀ b ∈ B, ∀ c ∈ C, compositeKeyLE profile b c) ∧
      (top_n ≤ (purposeRows profile catalog).length → B = []) := by
  rw [recommend_products]
  split_ifs with he
  · exact ⟨[], [], stage2Rows profile catalog top_n, by simp, by simp, by simp,
      List.Pairwise.nil, List.Pairwise.nil, by simp, by simp, fun _ => rfl⟩
  · rw [chosenRows]
    split_ifs with hlen
    · refine ⟨stage1Rows profile catalog top_n,
        ((stage2Rows profile catalog top_n).mergeSort (rankLE profile)).take
          (top_n - (stage1Rows profile catalog top_n).length),
        ((stage2Rows profile catalog top_n).mergeSort (rankLE profile)).drop
          (top_n - (stage1Rows profile catalog top_n).length),
        by rw [List.map_append], ?_, ?_, ?_, ?_, ?_, ?_, ?_⟩
      · exact fun r hr => (mem_purposeRows (mem_stage1Rows hr)).2
      · intro r hr
        have hr2 : r ∈ stage2Rows profile catalog top_n :=
          (List.mergeSort_perm _ _).mem_iff.mp (List.mem_of_mem_take hr)
        obtain ⟨helig, hnot⟩ := mem_stage2Rows hr2
        refine ⟨?_, helig⟩
        by_contra hpo
        have hpt : purposeOK profile.investment_purpose r.2 = true := by
          cases hb : purposeOK profile.investment_purpose r.2
          · exact absurd hb hpo
          · rfl
        have hrp : r ∈ purposeRows profile catalog := by
          rw [purposeRows, List.mem_filter]
          exact ⟨helig, hpt⟩
        have hrs : r ∈ stage1Rows profile catalog top_n := by
          rw [stage1Rows_eq_of_short hlen]
          exact (List.mergeSort_perm _ _).mem_iff.mpr hrp
        exact hnot (List.mem_map.mpr ⟨r, hrs, rfl⟩)
      · rw [stage1Rows]
        exact pairwise_take_mergeSort profile _ _
      · exact pairwise_take_mergeSort profile _ _
      · rw [List.take_append_drop]
        exact (List.mergeSort_perm _ _).symm
      · intro b hb c hc
        have hp := pairwise_mergeSort_rank profile (stage2Rows profile catalog top_n)
        rw [← List.take_append_drop
          (top_n - (stage1Rows profile catalog top_n).length)
          ((stage2Rows profile catalog top_n).mergeSort (rankLE profile))] at hp
        exact (rankLE_iff profile b c).mp
          ((List.pairwise_append.mp hp).2.2 b hb c hc)
      · intro htop
        exact absurd (purposeRows_short_of_stage1_short hlen) (not_lt.mpr htop)
    · refine ⟨stage1Rows profile catalog top_n, [], stage2Rows profile catalog top_n,
        by simp, fun r hr => (mem_purposeRows (mem_stage1Rows hr)).2, by simp, ?_,
        List.Pairwise.nil, by simp, by simp, fun _ => rfl⟩
      rw [stage1Rows]
      exact pairwise_take_mergeSort profile _ _

/-- C7: when the hard filter retains zero catalogue products,
recommend_products returns the empty list (a normal outcome, not an
error); in the embedding both recommend_products and simple_risk_score
are total functions, so no input can make them throw. -/
theorem claim_C7 (profile : InvestorProfile) (catalog : List Product) (top_n : Nat)
    (h : ∀ p ∈ catalog,
      hardOK (infer_risk_profile (simple_risk_score profile)) p = false) :
    recommend_products profile catalog top_n = [] := by
  have he : eligibleRows profile catalog = [] := by
    rw [eligibleRows, List.filter_eq_nil_iff]
    intro r hr
    obtain ⟨i, x⟩ := r
    rw [h x (snd_mem_of_mem_enum hr)]
    simp
  rw [recommend_products, he]
  rfl

/-- Witness for C7: a Balanced-scoring profile against a catalogue whose
only product suits Defensive profiles yields the empty list. -/
theorem claim_C7_witness :
    recommend_products ⟨"50,000 - 99,999", 5000, "No debt", 2000, 60, 3, "Retirement savings"⟩
      [⟨"Gilt Fund", "Bond", 1, "Defensive", "Retirement savings", 12, 500, none⟩] 5 = [] :=
  claim_C7 _ _ 5 (by
    intro p hp
    have hscore : simple_risk_score
        ⟨"50,000 - 99,999", 5000, "No debt", 2000, 60, 3, "Retirement savings"⟩ = 257/6 := by
      simp [simple_risk_score, unclamped_score, incomeOf, debtValue, savings_score,
        debt_score, investment_burden_score, time_score, leverage_penalty, risk_tolerance_score]
      norm_num
    have hlabel : infer_risk_profile (simple_risk_score
        ⟨"50,000 - 99,999", 5000, "No debt", 2000, 60, 3, "Retirement savings"⟩) = "Balanced" := by
      rw [hscore]
      norm_num [infer_risk_profile]
    rw [List.mem_singleton] at hp
    rw [hp, hlabel]
    decide)

/-- Witness for C5: a concrete catalogue with one Balanced-suitable
product, whose emitted recommendation is traced back to a hard-filtered
product. -/
theorem claim_C5_witness :
    ∃ p, p ∈ [(⟨"Steady Fund", "Fund", 3, "Balanced,Growth", "Retirement savings,Buying property", 12, 1000, some 5⟩ : Product)] ∧
      hardOK (infer_risk_profile (simple_risk_score
        ⟨"50,000 - 99,999", 5000, "No debt", 2000, 60, 3, "Retirement savings"⟩)) p = true ∧
      mkRecommendation ⟨"Steady Fund", "Fund", 3, "Balanced,Growth", "Retirement savings,Buying property", 12, 1000, some 5⟩ =
        mkRecommendation p := by
  have hscore : simple_risk_score
      ⟨"50,000 - 99,999", 5000, "No debt", 2000, 60, 3, "Retirement savings"⟩ = 257/6 := by
    simp [simple_risk_score, unclamped_score, incomeOf, debtValue, savings_score,
      debt_score, investment_burden_score, time_score, leverage_penalty, risk_tolerance_score]
    norm_num
  have hlabel : infer_risk_profile (simple_risk_score
      ⟨"50,000 - 99,999", 5000, "No debt", 2000, 60, 3, "Retirement savings"⟩) = "Balanced" := by
    rw [hscore]
    norm_num [infer_risk_profile]
  have helig : eligibleRows
      ⟨"50,000 - 99,999", 5000, "No debt", 2000, 60, 3, "Retirement savings"⟩
      [⟨"Steady Fund", "Fund", 3, "Balanced,Growth", "Retirement savings,Buying property", 12, 1000, some 5⟩] =
      [(0, ⟨"Steady Fund", "Fund", 3, "Balanced,Growth", "Retirement savings,Buying property", 12, 1000, some 5⟩)] := by
    rw [eligibleRows]
    simp only [hlabel]
    decide
  have hpurp : purposeRows
      ⟨"50,000 - 99,999", 5000, "No debt", 2000, 60, 3, "Retirement savings"⟩
      [⟨"Steady Fund", "Fund", 3, "Balanced,Growth", "Retirement savings,Buying property", 12, 1000, some 5⟩] =
      [(0, ⟨"Steady Fund", "Fund", 3, "Balanced,Growth", "Retirement savings,Buying property", 12, 1000, some 5⟩)] := by
    rw [purposeRows, helig]
    decide
  have hstage1 : stage1Rows
      ⟨"50,000 - 99,999", 5000, "No debt", 2000, 60, 3, "Retirement savings"⟩
      [⟨"Steady Fund", "Fund", 3, "Balanced,Growth", "Retirement savings,Buying property", 12, 1000, some 5⟩] 1 =
      [(0, ⟨"Steady Fund", "Fund", 3, "Balanced,Growth", "Retirement savings,Buying property", 12, 1000, some 5⟩)] := by
    rw [stage1Rows, hpurp]
    simp
  have hchosen : chosenRows
      ⟨"50,000 - 99,999", 5000, "No debt", 2000, 60, 3, "Retirement savings"⟩
      [⟨"Steady Fund", "Fund", 3, "Balanced,Growth", "Retirement savings,Buying property", 12, 1000, some 5⟩] 1 =
      [(0, ⟨"Steady Fund", "Fund", 3, "Balanced,Growth", "Retirement savings,Buying property", 12, 1000, some 5⟩)] := by
    rw [chosenRows, hstage1]
    simp
  have hout : recommend_products
      ⟨"50,000 - 99,999", 5000, "No debt", 2000, 60, 3, "Retirement savings"⟩
      [⟨"Steady Fund", "Fund", 3, "Balanced,Growth", "Retirement savings,Buying property", 12, 1000, some 5⟩] 1 =
      [mkRecommendation ⟨"Steady Fund", "Fund", 3, "Balanced,Growth", "Retirement savings,Buying property", 12, 1000, some 5⟩] := by
    rw [recommend_products, helig, hchosen]
    rfl
  exact claim_C5 _ _ 1 _ (by rw [hout]; exact List.mem_singleton_self _)

/-- Witness for C6 at a concrete profile and catalogue. -/
theorem claim_C6_witness :
    ∃ A B C : List (Nat × Product),
      recommend_products ⟨"50,000 - 99,999", 5000, "No debt", 2000, 60, 3, "Retirement savings"⟩
          [⟨"Steady Fund", "Fund", 3, "Balanced,Growth", "Retirement savings,Buying property", 12, 1000, some 5⟩] 5 =
        A.map (fun r => mkRecommendation r.2) ++ B.map (fun r => mkRecommendation r.2) ∧
      (∀ r ∈ A, purposeOK "Retirement savings" r.2 = true) ∧
      (∀ r ∈ B, purposeOK "Retirement savings" r.2 = false ∧
        r ∈ eligibleRows ⟨"50,000 - 99,999", 5000, "No debt", 2000, 60, 3, "Retirement savings"⟩
          [⟨"Steady Fund", "Fund", 3, "Balanced,Growth", "Retirement savings,Buying property", 12, 1000, some 5⟩]) ∧
      A.Pairwise (compositeKeyLE ⟨"50,000 - 99,999", 5000, "No debt", 2000, 60, 3, "Retirement savings"⟩) ∧
      B.Pairwise (compositeKeyLE ⟨"50,000 - 99,999", 5000, "No debt", 2000, 60, 3, "Retirement savings"⟩) ∧
      (stage2Rows ⟨"50,000 - 99,999", 5000, "No debt", 2000, 60, 3, "Retirement savings"⟩
          [⟨"Steady Fund", "Fund", 3, "Balanced,Growth", "Retirement savings,Buying property", 12, 1000, some 5⟩] 5).Perm (B ++ C) ∧
      (∀ b ∈ B, ∀ c ∈ C, compositeKeyLE ⟨"50,000 - 99,999", 5000, "No debt", 2000, 60, 3, "Retirement savings"⟩ b c) ∧
      (5 ≤ (purposeRows ⟨"50,000 - 99,999", 5000, "No debt", 2000, 60, 3, "Retirement savings"⟩
          [⟨"Steady Fund", "Fund", 3, "Balanced,Growth", "Retirement savings,Buying property", 12, 1000, some 5⟩]).length → B = []) :=
  claim_C6 ⟨"50,000 - 99,999", 5000, "No debt", 2000, 60, 3, "Retirement savings"⟩
    [⟨"Steady Fund", "Fund", 3, "Balanced,Growth", "Retirement savings,Buying property", 12, 1000, some 5⟩] 5
